import Mathlib

/-!
Verification of `apps/backend/scripts/create-onnx-model.py` (vaero).

The script constructs a fixed ONNX computation graph
(MatMul -> Add -> Softmax) over constant weight/bias tensors, validates it,
and writes it to a relative output path.  We embed the protobuf data model
shallowly (structures over `String`, `Nat`, `List`, with tensor data as
exact rationals), transcribe the construction calls one-to-one, give the
graph a reference evaluation semantics, and model the externally supplied
steps (schema validation, path handling, the effectful `main`) from the
spec where the library code is not part of the repository.
-/

namespace Vaero

/-- Element-type codes of the interchange format; the script only uses
`TensorProto.FLOAT` (code 1, 32-bit float). -/
def TensorProto.FLOAT : Nat := 1

/-- A value info: name, element type and shape of a graph input or output,
without embedded data (`helper.make_tensor_value_info`). -/
structure TensorValueInfo where
  name : String
  elemType : Nat
  shape : List Nat
deriving DecidableEq

/-- A constant tensor with embedded data (`helper.make_tensor`); the numeric
payload is embedded as exact rationals. -/
structure TensorData where
  name : String
  dataType : Nat
  dims : List Nat
  floatData : List ℚ
deriving DecidableEq

/-- An operation node (`helper.make_node`): operator identifier, input and
output tensor names, and named integer attributes. -/
structure NodeProto where
  opType : String
  input : List String
  output : List String
  attrs : List (String × Int)
deriving DecidableEq

/-- A graph (`helper.make_graph`): node list in execution order, name,
declared inputs and outputs, embedded constant tensors. -/
structure GraphProto where
  node : List NodeProto
  name : String
  input : List TensorValueInfo
  output : List TensorValueInfo
  initializer : List TensorData
deriving DecidableEq

/-- The model envelope (`helper.make_model` plus the opset overwrite). -/
structure ModelProto where
  graph : GraphProto
  producer_name : String
  opset_version : Nat
deriving DecidableEq

def make_tensor_value_info (name : String) (elemType : Nat)
    (shape : List Nat) : TensorValueInfo :=
  ⟨name, elemType, shape⟩

def make_tensor (name : String) (dataType : Nat) (dims : List Nat)
    (vals : List ℚ) : TensorData :=
  ⟨name, dataType, dims, vals⟩

def make_node (opType : String) (inputs outputs : List String)
    (attrs : List (String × Int)) : NodeProto :=
  ⟨opType, inputs, outputs, attrs⟩

def make_graph (nodes : List NodeProto) (name : String)
    (inputs outputs : List TensorValueInfo)
    (inits : List TensorData) : GraphProto :=
  ⟨nodes, name, inputs, outputs, inits⟩

/-- Transcription of `helper.make_model(graph, producer_name=...)`.  The library stamps the
current default opset, which the script immediately overwrites with 13, so
the embedded default (0) is never observable. -/
def make_model (g : GraphProto) (producer : String) : ModelProto :=
  ⟨g, producer, 0⟩

/-! ### Transcription of `create_simple_weather_model` (lines 12-91) -/

/-- The hand-authored 5x4 weight matrix literal (lines 31-37). -/
def weights : List (List ℚ) :=
  [[0.4, 0.3, 0.2, 0.1],
   [0.2, 0.4, 0.3, 0.1],
   [0.1, 0.2, 0.6, 0.1],
   [0.3, 0.2, 0.1, 0.4],
   [0.25, 0.25, 0.25, 0.25]]

/-- The bias vector literal (line 39). -/
def bias : List ℚ := [0.1, 0.1, 0.1, 0.1, 0.1]

/-- Input value info (lines 16-20): "weather_input", float32, shape [1, 4]. -/
def input_node : TensorValueInfo :=
  make_tensor_value_info "weather_input" TensorProto.FLOAT [1, 4]

/-- Output value info (lines 23-27): "advice_category", float32, [1, 5]. -/
def output_node : TensorValueInfo :=
  make_tensor_value_info "advice_category" TensorProto.FLOAT [1, 5]

/-- Weight tensor (lines 42-47): dims [5, 4], row-major flattened data. -/
def weight_tensor : TensorData :=
  make_tensor "weights" TensorProto.FLOAT [5, 4] weights.flatten

/-- Bias tensor (lines 49-54): dims [5]. -/
def bias_tensor : TensorData :=
  make_tensor "bias" TensorProto.FLOAT [5] bias

/-- MatMul node (lines 57-61). -/
def matmul_node : NodeProto :=
  make_node "MatMul" ["weather_input", "weights"] ["matmul_output"] []

/-- Add node (lines 64-68). -/
def add_node : NodeProto :=
  make_node "Add" ["matmul_output", "bias"] ["add_output"] []

/-- Softmax node (lines 71-76), attribute axis = 1. -/
def softmax_node : NodeProto :=
  make_node "Softmax" ["add_output"] ["advice_category"] [("axis", 1)]

/-- The graph (lines 79-85). -/
def weather_graph : GraphProto :=
  make_graph [matmul_node, add_node, softmax_node] "weather_advisor"
    [input_node] [output_node] [weight_tensor, bias_tensor]

/-- The model (lines 88-91): producer name set, opset version set to 13. -/
def create_simple_weather_model : ModelProto :=
  { make_model weather_graph "vaero-weather-ai" with opset_version := 13 }

/-! ### C7: name-resolution invariant on the node sequence -/

/-- Walk the node list in declaration order, threading the set of available
names; each node may only consume names already available and contributes
its outputs. -/
def nodesConsumeAvailable : List String → List NodeProto → Bool
  | _, [] => true
  | avail, n :: rest =>
      n.input.all (fun i => avail.contains i) &&
        nodesConsumeAvailable (avail ++ n.output) rest

/-- Every name a node consumes is produced by a prior node, a declared graph
input, or an embedded constant tensor. -/
def consumesOnlyAvailable (g : GraphProto) : Bool :=
  nodesConsumeAvailable
    (g.input.map (fun i => i.name) ++ g.initializer.map (fun t => t.name))
    g.node

/-- C7: in the constructed graph, every tensor name consumed by a node is
produced by an earlier node, a declared graph input, or an embedded
constant tensor. -/
theorem node_inputs_resolve : consumesOnlyAvailable weather_graph = true := by
  decide

/-! ### C8: declared inputs and outputs -/

/-- C8: the graph declares exactly one input value info, named
"weather_input" with element type float32 and shape [1, 4], and exactly one
output value info, named "advice_category" with element type float32 and
shape [1, 5]. -/
theorem declared_io_value_infos :
    weather_graph.input =
      [⟨"weather_input", TensorProto.FLOAT, [1, 4]⟩] ∧
    weather_graph.output =
      [⟨"advice_category", TensorProto.FLOAT, [1, 5]⟩] := by
  exact ⟨rfl, rfl⟩

/-! ### C9: embedded constant tensors -/

/-- C9: the graph embeds exactly two constant tensors: the weight tensor of
shape [5, 4] whose data are the literal rows flattened row-major to length
20, and the bias tensor of shape [5] and length 5 with every entry 0.1. -/
theorem embedded_constant_tensors :
    weather_graph.initializer = [weight_tensor, bias_tensor] ∧
    weight_tensor.dims = [5, 4] ∧
    weight_tensor.floatData = weights.flatten ∧
    weight_tensor.floatData =
      [0.4, 0.3, 0.2, 0.1,
       0.2, 0.4, 0.3, 0.1,
       0.1, 0.2, 0.6, 0.1,
       0.3, 0.2, 0.1, 0.4,
       0.25, 0.25, 0.25, 0.25] ∧
    weight_tensor.floatData.length = 20 ∧
    bias_tensor.dims = [5] ∧
    bias_tensor.floatData.length = 5 ∧
    (∀ x ∈ bias_tensor.floatData, x = 0.1) := by
  refine ⟨rfl, rfl, rfl, by with_unfolding_all decide, by decide, rfl,
    by decide, by with_unfolding_all decide⟩

/-! ### Reference evaluation semantics of the graph

Modelled from the spec: the interchange format's operator semantics
(numpy-style MatMul, broadcast Add, Softmax along an axis) are not part of
this repository; they are embedded here over exact rationals, with the
softmax exponential left as a parameter `e` so statements hold for any
exponential-like map. -/

/-- A runtime tensor value: dims plus row-major flattened data. -/
structure TValue where
  dims : List Nat
  data : List ℚ
deriving DecidableEq

/-- Dot product of two rational vectors. -/
def dotProd (xs ys : List ℚ) : ℚ :=
  (List.zipWith (fun a b => a * b) xs ys).sum

/-- Modelled from the spec: the MatMul operator on 2-D tensors follows
numpy matrix-product semantics — defined only when the inner dimensions
agree ([m, k] times [k, n] gives [m, n]); otherwise no result exists. -/
def matmulVal (x y : TValue) : Option TValue :=
  match x.dims, y.dims with
  | [m, k], [k2, n] =>
      if k = k2 then
        some ⟨[m, n],
          (List.range m).flatMap (fun i =>
            (List.range n).map (fun j =>
              dotProd ((x.data.drop (i * k)).take k)
                ((List.range k).map (fun t => y.data.getD (t * n + j) 0))))⟩
      else none
  | _, _ => none

/-- Modelled from the spec: elementwise Add with broadcasting over the
batch dimension — equal shapes add pointwise, and a [m, n] tensor
broadcasts with an [n] vector row by row; shape pairs that numpy's
trailing-dimension rule rejects give no result. -/
def addVal (x y : TValue) : Option TValue :=
  if x.dims = y.dims then
    some ⟨x.dims, List.zipWith (fun a b => a + b) x.data y.data⟩
  else
    match x.dims, y.dims with
    | [m, n], [n2] =>
        if n = n2 then
          some ⟨[m, n],
            (List.range m).flatMap (fun i =>
              List.zipWith (fun a b => a + b)
                ((x.data.drop (i * n)).take n) y.data)⟩
        else none
    | [n2], [m, n] =>
        if n = n2 then
          some ⟨[m, n],
            (List.range m).flatMap (fun i =>
              List.zipWith (fun a b => a + b)
                x.data ((y.data.drop (i * n)).take n))⟩
        else none
    | _, _ => none

/-- Modelled from the spec: Softmax with axis 1 on a 2-D tensor normalizes
each row by the exponential map `e`: entry v of a row becomes
e v / (sum of e over the row). -/
def softmaxVal (e : ℚ → ℚ) (axis : Int) (x : TValue) : Option TValue :=
  match x.dims with
  | [m, n] =>
      if axis = 1 then
        some ⟨[m, n],
          (List.range m).flatMap (fun i =>
            let row := (x.data.drop (i * n)).take n
            let s := (row.map e).sum
            row.map (fun v => e v / s))⟩
      else none
  | _ => none

/-- Look a tensor name up in the runtime environment. -/
def lookupEnv (env : List (String × TValue)) (nm : String) : Option TValue :=
  (env.find? (fun p => p.1 == nm)).map (fun p => p.2)

/-- Evaluate one node against the environment, binding its output. -/
def evalNode (e : ℚ → ℚ) (env : List (String × TValue))
    (n : NodeProto) : Option (List (String × TValue)) :=
  match n.opType, n.input, n.output with
  | "MatMul", [a, b], [c] => do
      let va ← lookupEnv env a
      let vb ← lookupEnv env b
      let v ← matmulVal va vb
      pure ((c, v) :: env)
  | "Add", [a, b], [c] => do
      let va ← lookupEnv env a
      let vb ← lookupEnv env b
      let v ← addVal va vb
      pure ((c, v) :: env)
  | "Softmax", [a], [c] =>
      match n.attrs with
      | [("axis", ax)] => do
          let va ← lookupEnv env a
          let v ← softmaxVal e ax va
          pure ((c, v) :: env)
      | _ => none
  | _, _, _ => none

/-- Evaluate the node list in declaration order. -/
def evalNodes (e : ℚ → ℚ) (env : List (String × TValue)) :
    List NodeProto → Option (List (String × TValue))
  | [] => some env
  | n :: rest =>
      match evalNode e env n with
      | some env2 => evalNodes e env2 rest
      | none => none

/-- Evaluate a graph on bindings for its declared inputs: seed the
environment with the inputs and the embedded constant tensors, run the
nodes in order, then read the declared outputs back. -/
def evalGraph (e : ℚ → ℚ) (g : GraphProto)
    (inputs : List (String × TValue)) : Option (List TValue) :=
  let env0 := inputs ++
    g.initializer.map (fun t => (t.name, (⟨t.dims, t.floatData⟩ : TValue)))
  match evalNodes e env0 g.node with
  | some env => g.output.mapM (fun o => lookupEnv env o.name)
  | none => none

/-! ### C1, C3, C10: the MatMul shapes are incompatible -/

/-- C1: the MatMul node's operands — the declared [1, 4] input and the
embedded [5, 4] weight tensor — do NOT form a shape-compatible matrix
product: the product is undefined, so no [1, 5] result is produced.  This
refutes the claim that the node computes a shape-compatible product (the
inner dimensions are 4 and 5). -/
theorem matmul_shapes_incompatible :
    matmulVal ⟨input_node.shape, [0, 0, 0, 0]⟩
      ⟨weight_tensor.dims, weight_tensor.floatData⟩ = none := by
  rfl

/-- C3: feeding the input vector [0, 0, 0, 0] through the constructed
graph yields no output at all under the reference semantics (the MatMul is
undefined on shapes [1, 4] and [5, 4]), not the uniform distribution
[1/5, 1/5, 1/5, 1/5, 1/5] the claim states. -/
theorem zero_input_evaluation_undefined :
    evalGraph id weather_graph
      [("weather_input", ⟨[1, 4], [0, 0, 0, 0]⟩)] = none := by
  rfl

/-- C10: for every data payload bound to the declared [1, 4] input and for
every exponential-like map, the constructed graph yields no output under
the reference semantics, so its output is never a probability
distribution — the evaluation fails at the MatMul node. -/
theorem graph_evaluation_never_yields_output :
    ∀ (e : ℚ → ℚ) (d : List ℚ),
      evalGraph e weather_graph [("weather_input", ⟨[1, 4], d⟩)] = none := by
  intro e d
  rfl

/-! ### The intended graph: transposing the weights repairs the shapes.
These lemmas support reading the shape mismatch as a slip in the script
(the declared [1, 5] output and the spec's expected uniform softmax both
hold once the weight matrix is oriented [4, 5]). -/

/-- The weight tensor as the script's intent requires: dims [4, 5], data
the transpose of the literal rows, flattened row-major. -/
def weight_tensor_fixed : TensorData :=
  make_tensor "weights" TensorProto.FLOAT [4, 5] weights.transpose.flatten

/-- The graph with the reoriented weight tensor. -/
def weather_graph_fixed : GraphProto :=
  make_graph [matmul_node, add_node, softmax_node] "weather_advisor"
    [input_node] [output_node] [weight_tensor_fixed, bias_tensor]

/-- With the weights transposed to [4, 5], the zero input evaluates end to
end and produces the uniform distribution over the five categories, as the
spec expects (stated for the exponential-like map fun x => 1 + x, which is
positive on the logits 0.1 arising here). -/
theorem fixed_graph_zero_input_uniform :
    evalGraph (fun x => 1 + x) weather_graph_fixed
      [("weather_input", ⟨[1, 4], [0, 0, 0, 0]⟩)] =
    some [⟨[1, 5], [1/5, 1/5, 1/5, 1/5, 1/5]⟩] := by
  with_unfolding_all decide

/-! ### C2: structural schema validation -/

/-- Look a name up in the static shape environment. -/
def lookupShape (shapes : List (String × List Nat)) (nm : String) :
    Option (List Nat) :=
  (shapes.find? (fun p => p.1 == nm)).map (fun p => p.2)

/-- Modelled from the spec: static shape of a broadcast Add (numpy
trailing-dimension rule, restricted to the ranks occurring here). -/
def broadcastShape : List Nat → List Nat → Option (List Nat)
  | s1, s2 =>
    if s1 = s2 then some s1
    else
      match s1, s2 with
      | [m, n], [n2] => if n = n2 then some [m, n] else none
      | [n2], [m, n] => if n = n2 then some [m, n] else none
      | _, _ => none

/-- Modelled from the spec: per-node static checking — every referenced
input name must resolve, the operator's attribute set must be complete
(MatMul and Add take no attributes; Softmax takes at most the integer
axis, whose value must index a dimension), and the statically determined
shapes must be consistent; on success the node's output shape is bound. -/
def inferNode (shapes : List (String × List Nat)) (n : NodeProto) :
    Option (List (String × List Nat)) :=
  match n.opType, n.input, n.output with
  | "MatMul", [a, b], [c] => do
      let sa ← lookupShape shapes a
      let sb ← lookupShape shapes b
      match sa, sb with
      | [m, k], [k2, nn] =>
          if n.attrs = [] ∧ k = k2 then some ((c, [m, nn]) :: shapes)
          else none
      | _, _ => none
  | "Add", [a, b], [c] => do
      let sa ← lookupShape shapes a
      let sb ← lookupShape shapes b
      let s ← broadcastShape sa sb
      if n.attrs = [] then some ((c, s) :: shapes) else none
  | "Softmax", [a], [c] => do
      let sa ← lookupShape shapes a
      match n.attrs with
      | [] => some ((c, sa) :: shapes)
      | [("axis", ax)] =>
          if 0 ≤ ax ∧ ax < (sa.length : Int) then some ((c, sa) :: shapes)
          else none
      | _ => none
  | _, _, _ => none

/-- Check the node list in order, threading the shape environment. -/
def checkNodes (shapes : List (String × List Nat)) :
    List NodeProto → Option (List (String × List Nat))
  | [] => some shapes
  | n :: rest =>
      match inferNode shapes n with
      | some s2 => checkNodes s2 rest
      | none => none

/-- Modelled from the spec: `onnx.checker.check_model` — structural schema
validation of the envelope.  It checks that every referenced tensor name
resolves, that shapes are internally consistent where statically
determinable, and that operator attribute sets are complete; the declared
outputs must carry the shapes static checking determines for them. -/
def check_model (m : ModelProto) : Bool :=
  let g := m.graph
  let shapes0 := g.input.map (fun i => (i.name, i.shape)) ++
    g.initializer.map (fun t => (t.name, t.dims))
  match checkNodes shapes0 g.node with
  | some shapes =>
      g.output.all (fun o => lookupShape shapes o.name == some o.shape)
  | none => false

/-- C2: structural schema validation REJECTS the constructed envelope —
the MatMul's statically determinable shapes [1, 4] and [5, 4] are
inconsistent — so the claim that the envelope always passes validation
(and that the failure branch in main is unreachable) fails on the built
model. -/
theorem check_model_fails_on_built_model :
    check_model create_simple_weather_model = false := by
  rfl

/-- The validator is not vacuous: on the envelope with the reoriented
[4, 5] weight tensor, the same checks all pass and the declared [1, 5]
output shape is confirmed. -/
theorem check_model_passes_on_fixed_model :
    check_model { make_model weather_graph_fixed "vaero-weather-ai" with
      opset_version := 13 } = true := by
  rfl

/-! ### C4, C5: the effectful `main` (lines 93-118)

`main` calls three external library operations: the schema checker (inside
the one try/except), `os.makedirs(..., exist_ok=True)` and `onnx.save`.
Their runtime outcomes enter the model as `Except` parameters; the control
flow, the effect order and the literal path are transcribed from the
source.  An `Except.error` outcome of `makedirs` or `save` stands for a
raised exception, which nothing in `main` catches. -/

/-- The fixed relative output path (line 108). -/
def output_path : String := "../models/weather-advisor.onnx"

/-- Transcription of `os.path.dirname`: everything before the last path
separator. -/
def dirnameOf (p : String) : String :=
  String.intercalate "/" (p.splitOn "/").dropLast

/-- An observable effect of running `main`. -/
inductive Effect where
  | printLine (s : String)
  | makedirs (dir : String) (exist_ok : Bool)
  | save (path : String)
deriving DecidableEq

/-- The outcome of a `main` run: the effects it performed in order, and
the uncaught exception it terminated with, if any. -/
structure MainRun where
  effects : List Effect
  uncaught : Option String
deriving DecidableEq

/-- Transcription of `main` (lines 93-118): print the banner; validate —
on failure print the message and return (the only caught failure); then
`os.makedirs(os.path.dirname(output_path), exist_ok=True)`, then
`onnx.save(model, output_path)`, then the success prints; a failure of
either uncaught step aborts the run with that exception. -/
def main (valRes mkRes saveRes : Except String Unit) : MainRun :=
  let eff0 := [Effect.printLine "Creating simple ONNX weather model..."]
  match valRes with
  | .error e =>
      ⟨eff0 ++ [Effect.printLine ("Model validation failed: " ++ e)], none⟩
  | .ok _ =>
      let eff1 := eff0 ++ [Effect.printLine "Model validation passed"]
      let effMk := eff1 ++ [Effect.makedirs (dirnameOf output_path) true]
      match mkRes with
      | .error e => ⟨effMk, some e⟩
      | .ok _ =>
          let effSave := effMk ++ [Effect.save output_path]
          match saveRes with
          | .error e => ⟨effSave, some e⟩
          | .ok _ =>
              ⟨effSave ++
                [Effect.printLine ("Model saved to " ++ output_path),
                 Effect.printLine "Model size: (file size in KB)",
                 Effect.printLine "Input shape: [1, 4]",
                 Effect.printLine "Output shape: [1, 5]"], none⟩

/-- Does an effect touch the filesystem? -/
def Effect.isFsWrite : Effect → Bool
  | .printLine _ => false
  | .makedirs _ _ => true
  | .save _ => true

/-- C5: a validation failure is reported as a message and `main` returns
early — its run performs no directory creation and no file write and
raises nothing; and validation is the only handled failure mode: a
directory-creation failure or a save failure propagates uncaught. -/
theorem validation_failure_only_handled_mode :
    (∀ (msg : String) (mk sv : Except String Unit),
      (main (.error msg) mk sv).effects =
        [Effect.printLine "Creating simple ONNX weather model...",
         Effect.printLine ("Model validation failed: " ++ msg)] ∧
      ((main (.error msg) mk sv).effects.all
        (fun ef => ! ef.isFsWrite)) = true ∧
      (main (.error msg) mk sv).uncaught = none) ∧
    (∀ (e : String) (sv : Except String Unit),
      (main (.ok ()) (.error e) sv).uncaught = some e) ∧
    (∀ (e : String),
      (main (.ok ()) (.ok ()) (.error e)).uncaught = some e) := by
  refine ⟨fun msg mk sv => ⟨rfl, rfl, rfl⟩, fun e sv => rfl, fun e => rfl⟩

/-! ### C4: where the output file lands -/

/-- Resolve a relative path (as a component list, where ".." pops and "."
is skipped) against a base directory, the way the operating system
resolves the relative strings `main` hands to `makedirs` and `save`
against the process's current working directory. -/
def resolvePath (base : List String) : List String → List String
  | [] => base
  | p :: rest =>
      if p = ".." then resolvePath base.dropLast rest
      else if p = "." then resolvePath base rest
      else resolvePath (base ++ [p]) rest

/-- Split a path string into components. -/
def splitPath (p : String) : List String := p.splitOn "/"

/-- The absolute location the run writes to, given the process's current
working directory: `main` passes `output_path` to the OS verbatim, so it
resolves against the working directory. -/
def writtenPath (cwd : List String) : List String :=
  resolvePath cwd (splitPath output_path)

/-- The directory holding the script inside the repository. -/
def scriptDir : List String := ["apps", "backend", "scripts"]

/-- Modelled from the spec: `os.makedirs` over a filesystem as the list of
existing directories — with `exist_ok` it never fails, creating whatever
prefixes of the target are missing; without it an existing target is an
error. -/
def makedirsRun (fs : List (List String)) (dir : List String)
    (exist_ok : Bool) : Option (List (List String)) :=
  if exist_ok = false ∧ fs.contains dir then none
  else
    some (fs ++ ((List.range dir.length).map
      (fun i => dir.take (i + 1))).filter (fun d => ! fs.contains d))

/-- C4 counterexample: the path is NOT resolved relative to the script's
location.  Run from the working directory ["tmp"], the write lands at
tmp/../models/weather-advisor.onnx = models/weather-advisor.onnx, not at
the script-relative apps/backend/models/weather-advisor.onnx — while the
run does save through the verbatim relative `output_path`. -/
theorem written_path_not_script_relative :
    writtenPath ["tmp"] ≠ resolvePath scriptDir (splitPath output_path) ∧
    writtenPath ["tmp"] = ["models", "weather-advisor.onnx"] ∧
    resolvePath scriptDir (splitPath output_path) =
      ["apps", "backend", "models", "weather-advisor.onnx"] ∧
    (main (.ok ()) (.ok ()) (.ok ())).effects.contains
      (Effect.save output_path) = true := by
  refine ⟨by with_unfolding_all decide, by with_unfolding_all decide,
    by with_unfolding_all decide, by decide⟩

/-- The components of the fixed relative output path. -/
theorem splitPath_output_path :
    splitPath output_path = ["..", "models", "weather-advisor.onnx"] := by
  with_unfolding_all decide

/-- C4 as amended: the save step writes the serialized envelope to the
fixed relative path ../models/weather-advisor.onnx resolved against the
process's current working directory; before the write it creates the
intermediate directories of ../models with exist_ok semantics, which
succeed whether or not the target directory already exists. -/
theorem save_step_cwd_relative :
    (main (.ok ()) (.ok ()) (.ok ())).effects =
      [Effect.printLine "Creating simple ONNX weather model...",
       Effect.printLine "Model validation passed",
       Effect.makedirs "../models" true,
       Effect.save "../models/weather-advisor.onnx",
       Effect.printLine ("Model saved to " ++ output_path),
       Effect.printLine "Model size: (file size in KB)",
       Effect.printLine "Input shape: [1, 4]",
       Effect.printLine "Output shape: [1, 5]"] ∧
    dirnameOf output_path = "../models" ∧
    (∀ cwd : List String,
      writtenPath cwd =
        resolvePath cwd ["..", "models", "weather-advisor.onnx"]) ∧
    (∀ (fs : List (List String)) (dir : List String),
      (makedirsRun fs dir true).isSome = true) := by
  refine ⟨by with_unfolding_all decide, by with_unfolding_all decide,
    fun cwd => ?_, fun fs dir => ?_⟩
  · show resolvePath cwd (splitPath output_path) =
      resolvePath cwd ["..", "models", "weather-advisor.onnx"]
    rw [splitPath_output_path]
  · simp [makedirsRun]

/-! ### C6: determinism of construction and serialization -/

/-- The ambient state a run could in principle observe; the script
consults none of it (no clock, no randomness, no environment reads during
construction and serialization). -/
structure Ambient where
  clock : Nat
  randomSeed : Nat
  cwd : List String
deriving DecidableEq

/-- Serialize a rational exactly. -/
def serializeRat (q : ℚ) : String :=
  toString q.num ++ "/" ++ toString q.den

/-- Serialize a name/dims/data triple. -/
def serializeDims (l : List Nat) : String :=
  String.intercalate "," (l.map toString)

/-- Serialize a node. -/
def serializeNode (n : NodeProto) : String :=
  n.opType ++ "[" ++ String.intercalate "," n.input ++ ">" ++
    String.intercalate "," n.output ++ "]" ++
    String.intercalate "," (n.attrs.map (fun a => a.1 ++ "=" ++ toString a.2))

/-- Modelled from the spec: the interchange format's binary encoding
(`onnx.save`) is a pure function of the envelope; embedded as a
deterministic structural rendering of every field. -/
def serializeModel (m : ModelProto) : String :=
  m.producer_name ++ ";" ++ toString m.opset_version ++ ";" ++
    m.graph.name ++ ";" ++
    String.intercalate "|" (m.graph.node.map serializeNode) ++ ";" ++
    String.intercalate "|" (m.graph.input.map
      (fun i => i.name ++ ":" ++ toString i.elemType ++ ":" ++
        serializeDims i.shape)) ++ ";" ++
    String.intercalate "|" (m.graph.output.map
      (fun i => i.name ++ ":" ++ toString i.elemType ++ ":" ++
        serializeDims i.shape)) ++ ";" ++
    String.intercalate "|" (m.graph.initializer.map
      (fun t => t.name ++ ":" ++ toString t.dataType ++ ":" ++
        serializeDims t.dims ++ ":" ++
        String.intercalate "," (t.floatData.map serializeRat)))

/-- One run of the builder plus serialization, as a function of the
ambient state: the transcription of `create_simple_weather_model` reads
none of it, so the ambient state is simply unused — exactly as in the
source, which contains no clock, randomness or environment access. -/
def build_and_serialize (_a : Ambient) : String :=
  serializeModel create_simple_weather_model

/-- C6: the builder is deterministic — any two runs, whatever the ambient
state (clock, random seed, working directory), produce byte-identical
serialized output. -/
theorem builder_deterministic :
    ∀ a1 a2 : Ambient, build_and_serialize a1 = build_and_serialize a2 := by
  intro a1 a2
  rfl

end Vaero
